import Mathlib

/-!
Verification of the stl-thumb offscreen rendering pipeline specification
against the code in src/lib.rs. Modules declared there but absent from the
sources (mesh.rs, fxaa.rs, config.rs) are modelled from the specification
text, as marked in the doc comments of the corresponding definitions.
All float32 arithmetic is embedded exactly over the rationals.
-/

namespace StlThumb

/-! ### Geometry data model -/

abbrev Vec3 := ℚ × ℚ × ℚ

/-- Triangle as described by the spec data model: three vertex positions and
one facet normal. -/
structure Triangle where
  normal : Vec3
  v0 : Vec3
  v1 : Vec3
  v2 : Vec3
deriving DecidableEq, Repr

/-- Mesh as described by the spec data model: flat vertex array with a
parallel flat normal array (the facet normal duplicated per vertex). -/
structure Mesh where
  vertices : List Vec3
  normals : List Vec3
deriving DecidableEq, Repr

/-- Per-axis (min, max) pair of the bounding box. -/
structure BoundingBox where
  bmin : Vec3
  bmax : Vec3
deriving DecidableEq, Repr

def vmin (a b : Vec3) : Vec3 := (min a.1 b.1, min a.2.1 b.2.1, min a.2.2 b.2.2)

def vmax (a b : Vec3) : Vec3 := (max a.1 b.1, max a.2.1 b.2.1, max a.2.2 b.2.2)

/-- Modelled from the spec: single linear pass over all vertex positions
accumulating per-axis min and max (mesh.rs is not among the sources). The
empty vertex list yields the degenerate box at the origin. -/
def bbox : List Vec3 → BoundingBox
  | [] => ⟨(0, 0, 0), (0, 0, 0)⟩
  | v :: vs => vs.foldl (fun bb w => ⟨vmin bb.bmin w, vmax bb.bmax w⟩) ⟨v, v⟩

def extentOf (bb : BoundingBox) : Vec3 :=
  (bb.bmax.1 - bb.bmin.1, bb.bmax.2.1 - bb.bmin.2.1, bb.bmax.2.2 - bb.bmin.2.2)

/-- Largest of the per-axis extents (max - min) of a bounding box. -/
def maxDim (bb : BoundingBox) : ℚ :=
  max (extentOf bb).1 (max (extentOf bb).2.1 (extentOf bb).2.2)

def centerOf (bb : BoundingBox) : Vec3 :=
  ((bb.bmin.1 + bb.bmax.1) / 2, (bb.bmin.2.1 + bb.bmax.2.1) / 2,
    (bb.bmin.2.2 + bb.bmax.2.2) / 2)

/-- Modelled from the spec: the fixed normalized extent the largest
bounding-box dimension is scaled to. The spec leaves the numeric value
open; it is a fixed positive constant of the program. -/
def targetExtent : ℚ := 2

/-- Modelled from the spec: the epsilon guarding the division in the scale
derivation, taken as the float32 machine epsilon. -/
def epsilon : ℚ := 1 / 2 ^ 23

/-- ModelTransform: a uniform scale combined with a translation,
`Scale(scale) ∘ Translate(translate)` applied as `v ↦ scale • (v + translate)`. -/
structure ModelTransform where
  scale : ℚ
  translate : Vec3
deriving DecidableEq, Repr

/-- Modelled from the spec: mesh.rs (Mesh::scale_and_center) is not among
the sources. Scale is `targetExtent / max(maxDim, epsilon)` with a fallback
to 1.0 for a bounding box of zero extent on every axis, and the translation
is the negated bounding-box center. -/
def scale_and_center (m : Mesh) : ModelTransform :=
  let bb := bbox m.vertices
  let s := if maxDim bb = 0 then 1 else targetExtent / max (maxDim bb) epsilon
  ⟨s, (-(centerOf bb).1, -(centerOf bb).2.1, -(centerOf bb).2.2)⟩

def applyTransform (t : ModelTransform) (v : Vec3) : Vec3 :=
  (t.scale * (v.1 + t.translate.1), t.scale * (v.2.1 + t.translate.2.1),
    t.scale * (v.2.2 + t.translate.2.2))

/-- A point is within floating-point epsilon of the origin componentwise. -/
def nearOrigin (v : Vec3) : Prop :=
  |v.1| ≤ epsilon ∧ |v.2.1| ≤ epsilon ∧ |v.2.2| ≤ epsilon

instance (v : Vec3) : Decidable (nearOrigin v) := by
  unfold nearOrigin; infer_instance

/-- A mesh consisting of a single point: its bounding box is degenerate. -/
def pointMesh : Mesh := ⟨[(0, 0, 0)], [(0, 0, 0)]⟩

/-- A mesh of two points spanning a nondegenerate bounding box. -/
def twoPointMesh : Mesh := ⟨[(0, 0, 0), (1, 2, 3)], [(0, 0, 0), (0, 0, 0)]⟩

/-! ### ImageCapture (lib.rs lines 189-191) -/

/-- RGBA8 pixel, one byte per channel. -/
abbrev Pixel := Nat × Nat × Nat × Nat

def pixelBytes (p : Pixel) : List Nat := [p.1, p.2.1, p.2.2.1, p.2.2.2]

def rowBytes (r : List Pixel) : List Nat := (r.map pixelBytes).flatten

/-- ImageCapture from lib.rs: `texture.read()` returns the RGBA8 rows in the
graphics order (bottom row first); the `flipv()` call reverses the row order
so the produced buffer is top-left-origin row major. The texture is
represented as its list of rows in graphics (bottom-first) order. -/
def capture (rows : List (List Pixel)) : List Nat :=
  ((rows.reverse).map rowBytes).flatten

/-! ### MeshLoader (Mesh::from_stl), modelled from the spec
mesh.rs is not among the sources; the loader is modelled from the spec
contract in section 4.1: binary (80-byte header, little-endian triangle
count, 50-byte records) and text (solid/endsolid facet blocks) variants,
distinguished by whether the stream begins with the text keyword. -/

/-- Byte of a stream at an index (0 past the end). -/
def getByte (s : List Nat) (i : Nat) : Nat := s.getD i 0

def map2 {α β γ : Type} (f : α → β → γ) : Option α → Option β → Option γ
  | some a, some b => some (f a b)
  | _, _ => none

def map3 {α β γ δ : Type} (f : α → β → γ → δ) :
    Option α → Option β → Option γ → Option δ
  | some a, some b, some c => some (f a b c)
  | _, _, _ => none

def map4 {α β γ δ ε : Type} (f : α → β → γ → δ → ε) :
    Option α → Option β → Option γ → Option δ → Option ε
  | some a, some b, some c, some d => some (f a b c d)
  | _, _, _, _ => none

def map5 {α β γ δ ε ζ : Type} (f : α → β → γ → δ → ε → ζ) :
    Option α → Option β → Option γ → Option δ → Option ε → Option ζ
  | some a, some b, some c, some d, some e => some (f a b c d e)
  | _, _, _, _, _ => none

/-- IEEE 754 binary32 decoding of four little-endian bytes into the exact
rational value; `none` when the exponent field is all ones, the encodings
of the non-finite values (infinities and NaNs). -/
def decodeF32 (b0 b1 b2 b3 : Nat) : Option ℚ :=
  let sign : ℚ := if b3 / 128 % 2 == 1 then -1 else 1
  let e := b3 % 128 * 2 + b2 / 128 % 2
  let frac := b2 % 128 * 65536 + b1 * 256 + b0
  if e == 255 then none
  else if e == 0 then some (sign * frac / 2 ^ 149)
  else some (sign * (2 ^ 23 + frac) * 2 ^ e / 2 ^ 150)

/-- Coordinate number `j` (of 12) of the record at byte offset `off`:
four little-endian bytes starting at `off + 4 * j`. -/
def coordAt (s : List Nat) (off j : Nat) : Option ℚ :=
  decodeF32 (getByte s (off + 4 * j)) (getByte s (off + 4 * j + 1))
    (getByte s (off + 4 * j + 2)) (getByte s (off + 4 * j + 3))

def decodeVec3At (s : List Nat) (off j0 : Nat) : Option Vec3 :=
  map3 (fun a b c => (a, b, c)) (coordAt s off j0) (coordAt s off (j0 + 1))
    (coordAt s off (j0 + 2))

/-- One 50-byte binary record at offset `off`: normal, three vertices
(12 float32 coordinates), then a 2-byte attribute that is ignored. -/
def decodeTriangleAt (s : List Nat) (off : Nat) : Option Triangle :=
  map4 (fun n a b c => ⟨n, a, b, c⟩) (decodeVec3At s off 0)
    (decodeVec3At s off 3) (decodeVec3At s off 6) (decodeVec3At s off 9)

/-- Binary records consumed until the declared count is exhausted, failing
when fewer than 50 bytes remain for the next record (truncated stream) or a
parsed coordinate is non-finite. -/
def parseRecords (s : List Nat) : Nat → Nat → Option (List Triangle)
  | _, 0 => some []
  | off, n + 1 =>
    if s.length < off + 50 then none
    else map2 (fun t ts => t :: ts) (decodeTriangleAt s off)
      (parseRecords s (off + 50) n)

/-- The 4-byte little-endian triangle count following the 80-byte header. -/
def declaredCount (s : List Nat) : Nat :=
  getByte s 80 + 256 * getByte s 81 + 65536 * getByte s 82 +
    16777216 * getByte s 83

/-- Flat vertex array and parallel flat normal array: triangle order, the
facet normal duplicated to each of the three vertices. -/
def meshOfTriangles (ts : List Triangle) : Mesh :=
  ⟨(ts.map (fun t => [t.v0, t.v1, t.v2])).flatten,
    (ts.map (fun t => [t.normal, t.normal, t.normal])).flatten⟩

def kwSolid : List Nat := [115, 111, 108, 105, 100]

def kwFacet : List Nat := [102, 97, 99, 101, 116]

def kwNormal : List Nat := [110, 111, 114, 109, 97, 108]

def kwOuter : List Nat := [111, 117, 116, 101, 114]

def kwLoop : List Nat := [108, 111, 111, 112]

def kwVertex : List Nat := [118, 101, 114, 116, 101, 120]

def kwEndloop : List Nat := [101, 110, 100, 108, 111, 111, 112]

def kwEndfacet : List Nat := [101, 110, 100, 102, 97, 99, 101, 116]

def kwEndsolid : List Nat := [101, 110, 100, 115, 111, 108, 105, 100]

/-- Detection: the stream is the text variant exactly when it begins with
the text keyword `solid`. -/
def isText (s : List Nat) : Bool := s.take 5 == kwSolid

def splitLines : List Nat → List (List Nat)
  | [] => [[]]
  | b :: rest =>
    match splitLines rest with
    | [] => [[b]]
    | l :: ls => if b == 10 then [] :: l :: ls else (b :: l) :: ls

def isWSByte (b : Nat) : Bool := b == 32 || b == 9 || b == 13

def splitTokens : List Nat → List (List Nat)
  | [] => [[]]
  | b :: rest =>
    match splitTokens rest with
    | [] => [[b]]
    | t :: ts => if isWSByte b then [] :: t :: ts else (b :: t) :: ts

def tokensOfLine (l : List Nat) : List (List Nat) :=
  (splitTokens l).filter (fun t => !t.isEmpty)

abbrev Line := List (List Nat)

/-- Non-blank lines of the stream, each as its whitespace-separated tokens
(tolerant of surrounding whitespace). -/
def linesOf (s : List Nat) : List Line :=
  ((splitLines s).map tokensOfLine).filter (fun l => !l.isEmpty)

def isDigitByte (b : Nat) : Bool := Nat.ble 48 b && Nat.ble b 57

def digitsVal (ds : List Nat) : Nat := ds.foldl (fun a b => a * 10 + (b - 48)) 0

/-- Decimal float literal of a coordinate token: optional sign, integer
digits, optional fraction, optional exponent, with at least one mantissa
digit; the exact value as a rational. -/
def parseFloatToken (t : List Nat) : Option ℚ :=
  let sgn : ℚ × List Nat :=
    match t with
    | 43 :: r => (1, r)
    | 45 :: r => (-1, r)
    | _ => (1, t)
  let sign := sgn.1
  let t1 := sgn.2
  let ip := t1.takeWhile isDigitByte
  let r1 := t1.dropWhile isDigitByte
  let fpr : List Nat × List Nat :=
    match r1 with
    | 46 :: r => (r.takeWhile isDigitByte, r.dropWhile isDigitByte)
    | _ => ([], r1)
  let fp := fpr.1
  let r2 := fpr.2
  if ip.isEmpty && fp.isEmpty then none
  else
    let mant : ℚ := (digitsVal ip : ℚ) + (digitsVal fp : ℚ) / 10 ^ fp.length
    match r2 with
    | [] => some (sign * mant)
    | e :: r3 =>
      if e == 101 || e == 69 then
        let esr : Bool × List Nat :=
          match r3 with
          | 43 :: r => (true, r)
          | 45 :: r => (false, r)
          | _ => (true, r3)
        let ed := esr.2.takeWhile isDigitByte
        if ed.isEmpty || !(esr.2.dropWhile isDigitByte).isEmpty then none
        else if esr.1 then some (sign * mant * 10 ^ digitsVal ed)
        else some (sign * mant / 10 ^ digitsVal ed)
      else none

/-- Largest finite float32 value, as the bound deciding whether an exactly
parsed decimal coordinate is representable as a finite float32. -/
def maxFiniteF32 : ℚ := (2 ^ 24 - 1) * 2 ^ 104

def tokenIsLiteral (t : List Nat) : Bool := (parseFloatToken t).isSome

def tokenFiniteVal (t : List Nat) : Bool :=
  match parseFloatToken t with
  | some q => decide (|q| ≤ maxFiniteF32)
  | none => true

/-- A parsed coordinate: a valid literal whose value is finite in float32. -/
def parseCoordTok (t : List Nat) : Option ℚ :=
  match parseFloatToken t with
  | some q => if |q| ≤ maxFiniteF32 then some q else none
  | none => none

def parseVertexLine (l : Line) : Option Vec3 :=
  match l with
  | [kw, tx, ty, tz] =>
    if kw == kwVertex then
      map3 (fun a b c => (a, b, c)) (parseCoordTok tx) (parseCoordTok ty)
        (parseCoordTok tz)
    else none
  | _ => none

def parseNormalLine (l : Line) : Option Vec3 :=
  match l with
  | [k1, k2, tx, ty, tz] =>
    if k1 == kwFacet && k2 == kwNormal then
      map3 (fun a b c => (a, b, c)) (parseCoordTok tx) (parseCoordTok ty)
        (parseCoordTok tz)
    else none
  | _ => none

def isOuterLoopLine (l : Line) : Bool := l == [kwOuter, kwLoop]

def isEndloopLine (l : Line) : Bool := l == [kwEndloop]

def isEndfacetLine (l : Line) : Bool := l == [kwEndfacet]

def isEndsolidLine (l : Line) : Bool :=
  match l with
  | k :: _ => k == kwEndsolid
  | [] => false

/-- Facet blocks of the text variant: `facet normal nx ny nz`,
`outer loop`, three `vertex x y z` lines, `endloop`, `endfacet`, repeated
until the `endsolid` line. -/
def parseFacets : List Line → Option (List Triangle)
  | [] => none
  | l :: ls =>
    if isEndsolidLine l then some []
    else
      match ls with
      | l2 :: l3 :: l4 :: l5 :: l6 :: l7 :: rest =>
        if isOuterLoopLine l2 && isEndloopLine l6 && isEndfacetLine l7 then
          map5 (fun n a b c ts => Triangle.mk n a b c :: ts)
            (parseNormalLine l) (parseVertexLine l3) (parseVertexLine l4)
            (parseVertexLine l5) (parseFacets rest)
        else none
      | _ => none

def parseText (s : List Nat) : Option Mesh :=
  match linesOf s with
  | [] => none
  | l1 :: rest =>
    match l1 with
    | k :: _ =>
      if k == kwSolid then (parseFacets rest).map meshOfTriangles else none
    | [] => none

/-- MeshLoader contract entry point: `Mesh::from_stl`. `none` is the
ParseError outcome. -/
def from_stl (s : List Nat) : Option Mesh :=
  if isText s then parseText s
  else if s.length < 84 then none
  else (parseRecords s 84 (declaredCount s)).map meshOfTriangles

/-! Declarative failure conditions of the loader, used to state the error
contract of section 4.1 as the spec phrases it. -/

def vertexLineShape (l : Line) : Bool :=
  match l with
  | [kw, tx, ty, tz] =>
    kw == kwVertex && tokenIsLiteral tx && tokenIsLiteral ty &&
      tokenIsLiteral tz
  | _ => false

def vertexLineFinite (l : Line) : Bool :=
  match l with
  | [_, tx, ty, tz] => tokenFiniteVal tx && tokenFiniteVal ty && tokenFiniteVal tz
  | _ => true

def normalLineShape (l : Line) : Bool :=
  match l with
  | [k1, k2, tx, ty, tz] =>
    k1 == kwFacet && k2 == kwNormal && tokenIsLiteral tx &&
      tokenIsLiteral ty && tokenIsLiteral tz
  | _ => false

def normalLineFinite (l : Line) : Bool :=
  match l with
  | [_, _, tx, ty, tz] =>
    tokenFiniteVal tx && tokenFiniteVal ty && tokenFiniteVal tz
  | _ => true

/-- Well-formedness of the facet blocks: the malformed-facet-block condition
of the contract is the negation of this shape check. -/
def facetsShape : List Line → Bool
  | [] => false
  | l :: ls =>
    if isEndsolidLine l then true
    else
      match ls with
      | l2 :: l3 :: l4 :: l5 :: l6 :: l7 :: rest =>
        normalLineShape l && isOuterLoopLine l2 && vertexLineShape l3 &&
          vertexLineShape l4 && vertexLineShape l5 && isEndloopLine l6 &&
          isEndfacetLine l7 && facetsShape rest
      | _ => false

/-- All coordinates appearing in the facet blocks are finite (vacuously true
where the shape is broken). -/
def facetsFinite : List Line → Bool
  | [] => true
  | l :: ls =>
    if isEndsolidLine l then true
    else
      match ls with
      | _ :: l3 :: l4 :: l5 :: _ :: _ :: rest =>
        normalLineFinite l && vertexLineFinite l3 && vertexLineFinite l4 &&
          vertexLineFinite l5 && facetsFinite rest
      | _ => true

def textWellFormed (s : List Nat) : Bool :=
  match linesOf s with
  | [] => false
  | l1 :: rest =>
    (match l1 with
      | k :: _ => k == kwSolid
      | [] => false) && facetsShape rest

def textAllFinite (s : List Nat) : Bool :=
  match linesOf s with
  | [] => true
  | _ :: rest => facetsFinite rest

/-- A minimal valid binary stream: 80-byte header, triangle count zero. -/
def emptyBinStl : List Nat := List.replicate 80 0 ++ [0, 0, 0, 0]

def emptyMesh : Mesh := meshOfTriangles []

/-- A truncated binary stream: declared triangle count one, no record. -/
def truncBinStl : List Nat := List.replicate 80 0 ++ [1, 0, 0, 0]

/-! ### AntialiasPass, modelled from the spec (fxaa.rs absent) -/

abbrev Color := ℚ × ℚ × ℚ × ℚ

/-- Texture contents as a color field over integer pixel coordinates. -/
abbrev TextureImage := ℤ → ℤ → Color

/-- Approximate luma: weighted sum of the RGB channels. -/
def luma (c : Color) : ℚ :=
  299 / 1000 * c.1 + 587 / 1000 * c.2.1 + 114 / 1000 * c.2.2.1

/-- Fixed contrast threshold of the edge detection. -/
def fxaaThreshold : ℚ := 1 / 8

def mixColor (a b : Color) (t : ℚ) : Color :=
  ((1 - t) * a.1 + t * b.1, (1 - t) * a.2.1 + t * b.2.1,
    (1 - t) * a.2.2.1 + t * b.2.2.1, (1 - t) * a.2.2.2 + t * b.2.2.2)

/-- Modelled from the spec: fxaa.rs is not among the sources. Per-pixel rule
of the luma-edge-based pass: sample the pixel and its four neighbor taps,
estimate local contrast as max minus min luma; at or below the threshold the
source pixel passes through unchanged, above it the pixel is blended toward
the neighbor in the estimated edge direction by a sub-pixel offset
proportional to the local gradient magnitude. -/
def fxaaPixel (img : TextureImage) (x y : ℤ) : Color :=
  let c := img x y
  let lC := luma c
  let lN := luma (img x (y + 1))
  let lS := luma (img x (y - 1))
  let lE := luma (img (x + 1) y)
  let lW := luma (img (x - 1) y)
  let lMax := max lC (max lN (max lS (max lE lW)))
  let lMin := min lC (min lN (min lS (min lE lW)))
  let contrast := lMax - lMin
  if contrast ≤ fxaaThreshold then c
  else
    let gx := lE - lW
    let gy := lN - lS
    let offset := min (1 / 2) ((|gx| + |gy|) / 4)
    let nb :=
      if |gy| ≥ |gx| then (if gy ≥ 0 then img x (y + 1) else img x (y - 1))
      else (if gx ≥ 0 then img (x + 1) y else img (x - 1) y)
    mixColor c nb offset

/-- AntialiasPass: reads from the completed source texture and writes a new
equally-sized texture; in this pure embedding the source is unchanged by
construction. -/
def fxaaApply (img : TextureImage) : TextureImage := fun x y => fxaaPixel img x y

def uniformImage (c : Color) : TextureImage := fun _ _ => c

/-! ### The run pipeline (lib.rs, fn run), with the results of external
calls (file system, GPU driver) supplied as an environment and the
externally visible pipeline steps recorded as an event trace. -/

inductive ImageFormat
  | png
  | jpeg
  | bmp
deriving DecidableEq, Repr

inductive Dest
  | file (name : String)
  | stdout
deriving DecidableEq, Repr

inductive Ev
  | openFile
  | parseStl
  | createDisplay
  | compileProgram
  | createVertexBuffer
  | createNormalBuffer
  | createTexture
  | createDepthTexture
  | createFramebuffer
  | createFxaa
  | clearColorAndDepth (color : Color) (depth : ℚ)
  | draw
  | readPixels
  | writeImage (fmt : ImageFormat) (dest : Dest)
deriving DecidableEq, Repr

/-- GPU resource allocations: context, shader program, vertex and normal
buffers, color and depth textures, framebuffer, fxaa system. -/
def Ev.isGpuAlloc : Ev → Bool
  | .createDisplay => true
  | .compileProgram => true
  | .createVertexBuffer => true
  | .createNormalBuffer => true
  | .createTexture => true
  | .createDepthTexture => true
  | .createFramebuffer => true
  | .createFxaa => true
  | _ => false

def noGpuAlloc (t : List Ev) : Bool := t.all (fun e => !e.isGpuAlloc)

def allWritesPng (t : List Ev) : Bool :=
  t.all (fun e =>
    match e with
    | .writeImage fmt _ => fmt == ImageFormat.png
    | _ => true)

inductive RunError
  | ioError
  | parseError
  | graphicsInitError
  | readbackError
deriving DecidableEq, Repr

/-- Outcome of run: normal return, a tagged error returned through the
Result, or a process abort (panic). -/
inductive Outcome
  | ok
  | err (e : RunError)
  | panic (msg : String)
deriving DecidableEq, Repr

inductive CompileResult
  | ok
  | compilationError (diag : String)
  | otherError (msg : String)
deriving DecidableEq, Repr

/-- Configuration of a run, with the fields the lib.rs cube test
instantiates (config.rs is not among the sources). -/
structure Config where
  stl_filename : String
  img_filename : Option String
  width : Nat
  height : Nat
  visible : Bool
deriving DecidableEq, Repr

/-- Modelled from the spec: the render-configuration surface of section 6
additionally carries a background color with alpha. The Config consumed by
lib.rs has no such field; this spec-side structure states what claim C8
asserts about an externally supplied background. -/
structure SpecRenderConfig where
  width : Nat
  height : Nat
  background : Color
  visible : Bool
deriving DecidableEq, Repr

/-- The hard-coded background color constant of lib.rs (line 22):
RGBA (1.0, 1.0, 1.0, 0.0), alpha zero. -/
def BACKGROUND_COLOR : Color := (1, 1, 1, 0)

/-- Results of the external calls made by run. `stlBytes` is the opened
input stream, the remaining fields the results of the GPU and output calls
in source order; `renderedPixels` is the offscreen texture contents after
the draw, as rows of RGBA8 pixels in graphics (bottom-first) order. -/
structure Env where
  stlBytes : Except Unit (List Nat)
  displayNew : Except Unit Unit
  compileResult : CompileResult
  vertexBufNew : Except Unit Unit
  normalBufNew : Except Unit Unit
  textureNew : Except Unit Unit
  depthTextureNew : Except Unit Unit
  framebufferNew : Except Unit Unit
  drawResult : Except Unit Unit
  renderedPixels : List (List Pixel)
  fileCreate : Except Unit Unit
  writeResult : Except Unit Unit

/-- The run pipeline of lib.rs, stage by stage in source order: file open
and mesh parse propagate failure through the Result (the question-mark
operator); every later failure aborts through panic (the unwrap, expect and
panic calls of the source; on shader compilation failure the source logs
the diagnostic and panics with the fixed message). The pure
scale-and-center, matrix and uniform computations have no externally
visible effect and produce no event. The optional visible preview loop
changes no outcome and is not traced. -/
def run (cfg : Config) (env : Env) : Outcome × List Ev :=
  match env.stlBytes with
  | .error _ => (.err .ioError, [.openFile])
  | .ok bytes =>
    match from_stl bytes with
    | none => (.err .parseError, [.openFile, .parseStl])
    | some _mesh =>
      let t3 : List Ev := [.openFile, .parseStl, .createDisplay]
      match env.displayNew with
      | .error _ => (.panic ("display creation"), t3)
      | .ok _ =>
        let t4 := t3 ++ [Ev.compileProgram]
        match env.compileResult with
        | .compilationError _ => (.panic ("Compiling shaders"), t4)
        | .otherError msg => (.panic msg, t4)
        | .ok =>
          let t5 := t4 ++ [Ev.createVertexBuffer]
          match env.vertexBufNew with
          | .error _ => (.panic ("vertex buffer"), t5)
          | .ok _ =>
            let t6 := t5 ++ [Ev.createNormalBuffer]
            match env.normalBufNew with
            | .error _ => (.panic ("normal buffer"), t6)
            | .ok _ =>
              let t7 := t6 ++ [Ev.createTexture]
              match env.textureNew with
              | .error _ => (.panic ("texture creation"), t7)
              | .ok _ =>
                let t8 := t7 ++ [Ev.createDepthTexture]
                match env.depthTextureNew with
                | .error _ => (.panic ("depth texture creation"), t8)
                | .ok _ =>
                  let t9 := t8 ++ [Ev.createFramebuffer]
                  match env.framebufferNew with
                  | .error _ => (.panic ("framebuffer creation"), t9)
                  | .ok _ =>
                    let t10 := t9 ++ [Ev.createFxaa,
                      Ev.clearColorAndDepth BACKGROUND_COLOR 1, Ev.draw]
                    match env.drawResult with
                    | .error _ => (.panic ("draw call"), t10)
                    | .ok _ =>
                      let t11 := t10 ++ [Ev.readPixels]
                      let buffer := capture env.renderedPixels
                      if buffer.length = cfg.width * cfg.height * 4 then
                        match cfg.img_filename with
                        | some name =>
                          match env.fileCreate with
                          | .error _ => (.panic ("output file creation"), t11)
                          | .ok _ =>
                            let t12 := t11 ++
                              [Ev.writeImage ImageFormat.png (Dest.file name)]
                            match env.writeResult with
                            | .error _ => (.panic ("Error saving image"), t12)
                            | .ok _ => (.ok, t12)
                        | none =>
                          let t12 := t11 ++
                            [Ev.writeImage ImageFormat.png Dest.stdout]
                          match env.writeResult with
                          | .error _ => (.panic ("Error saving image"), t12)
                          | .ok _ => (.ok, t12)
                      else (.panic ("image buffer size"), t11)

def destOf : Option String → Dest
  | some n => Dest.file n
  | none => Dest.stdout

/-- An environment in which every external call succeeds and the rendered
texture is a single pixel. -/
def envOK : Env :=
  ⟨Except.ok emptyBinStl, Except.ok (), CompileResult.ok, Except.ok (),
    Except.ok (), Except.ok (), Except.ok (), Except.ok (), Except.ok (),
    [[(0, 0, 0, 0)]], Except.ok (), Except.ok ()⟩

/-- A configuration with a non-PNG output extension and a 1 by 1 target. -/
def cfgBase : Config := ⟨"cube.stl", some ("out.jpg"), 1, 1, false⟩

/-- A configuration writing to standard output. -/
def cfgStdout : Config := ⟨"cube.stl", none, 1, 1, false⟩

def envCompileFail : Env :=
  { envOK with compileResult := CompileResult.compilationError ("diag") }

/-- An environment in which acquiring the graphics context fails. -/
def envDisplayFail : Env := { envOK with displayNew := Except.error () }

def envTrunc : Env := { envOK with stlBytes := Except.ok truncBinStl }

/-- The spec-side render configuration of claim C8, whose supplied
background differs from the hard-coded constant. -/
def specCfg : SpecRenderConfig := ⟨1, 1, (0, 0, 0, 1), false⟩

/-! ### Theorems -/

theorem length_flatten_uniform {α : Type} (L : List (List α)) (k : Nat)
    (h : ∀ r ∈ L, r.length = k) : L.flatten.length = L.length * k := by
  induction L with
  | nil => simp
  | cons r L ih =>
    have hr : r.length = k := h r (List.mem_cons_self r L)
    have hL : ∀ x ∈ L, x.length = k := fun x hx => h x (List.mem_cons_of_mem r hx)
    simp [hr, ih hL, Nat.succ_mul, Nat.add_comm]

theorem rowBytes_length (r : List Pixel) : (rowBytes r).length = r.length * 4 := by
  unfold rowBytes
  rw [length_flatten_uniform (r.map pixelBytes) 4]
  · simp
  · intro x hx
    rcases List.mem_map.mp hx with ⟨p, _, rfl⟩
    simp [pixelBytes]

theorem flatten_uniform_extract {α : Type} :
    ∀ (L : List (List α)) (k i : Nat), (∀ r ∈ L, r.length = k) → i < L.length →
      ((L.flatten).drop (k * i)).take k = L.getD i []
  | [], _, i, _, hi => absurd hi (by simp)
  | r :: L, k, 0, h, _ => by
    have hr : r.length = k := h r (List.mem_cons_self r L)
    simp only [List.flatten_cons, Nat.mul_zero, List.drop_zero, List.getD_cons_zero]
    rw [← hr, List.take_left]
  | r :: L, k, i + 1, h, hi => by
    have hr : r.length = k := h r (List.mem_cons_self r L)
    have hL : ∀ x ∈ L, x.length = k := fun x hx => h x (List.mem_cons_of_mem r hx)
    have hi' : i < L.length := by simpa using Nat.lt_of_succ_lt_succ hi
    have hd : (r ++ L.flatten).drop k = L.flatten := by
      rw [← hr]; exact List.drop_left r L.flatten
    simp only [List.flatten_cons, List.getD_cons_succ]
    rw [Nat.mul_succ, Nat.add_comm, ← List.drop_drop, hd]
    exact flatten_uniform_extract L k i hL hi'

theorem epsilon_pos : (0 : ℚ) < epsilon := by norm_num [epsilon]

theorem map2_eq_none {α β γ : Type} (f : α → β → γ) (x : Option α)
    (y : Option β) : map2 f x y = none ↔ x = none ∨ y = none := by
  cases x <;> cases y <;> simp [map2]

theorem map3_eq_none {α β γ δ : Type} (f : α → β → γ → δ) (x : Option α)
    (y : Option β) (z : Option γ) :
    map3 f x y z = none ↔ x = none ∨ y = none ∨ z = none := by
  cases x <;> cases y <;> cases z <;> simp [map3]

theorem map4_eq_none {α β γ δ ε : Type} (f : α → β → γ → δ → ε)
    (w : Option α) (x : Option β) (y : Option γ) (z : Option δ) :
    map4 f w x y z = none ↔ w = none ∨ x = none ∨ y = none ∨ z = none := by
  cases w <;> cases x <;> cases y <;> cases z <;> simp [map4]

theorem map3_isSome {α β γ δ : Type} (f : α → β → γ → δ) (x : Option α)
    (y : Option β) (z : Option γ) :
    (map3 f x y z).isSome = (x.isSome && y.isSome && z.isSome) := by
  cases x <;> cases y <;> cases z <;> simp [map3]

theorem map5_isSome {α β γ δ ε ζ : Type} (f : α → β → γ → δ → ε → ζ)
    (v : Option α) (w : Option β) (x : Option γ) (y : Option δ)
    (z : Option ε) :
    (map5 f v w x y z).isSome =
      (v.isSome && w.isSome && x.isSome && y.isSome && z.isSome) := by
  cases v <;> cases w <;> cases x <;> cases y <;> cases z <;> simp [map5]

theorem decodeVec3At_eq_none (s : List Nat) (off j0 : Nat) :
    decodeVec3At s off j0 = none ↔
      coordAt s off j0 = none ∨ coordAt s off (j0 + 1) = none ∨
        coordAt s off (j0 + 2) = none := by
  simp [decodeVec3At, map3_eq_none]

theorem decodeTriangleAt_none_iff (s : List Nat) (off : Nat) :
    decodeTriangleAt s off = none ↔
      ∃ j, j < 12 ∧ coordAt s off j = none := by
  simp only [decodeTriangleAt, map4_eq_none, decodeVec3At_eq_none]
  norm_num
  constructor
  · rintro ((h | h | h) | (h | h | h) | (h | h | h) | (h | h | h))
    exacts [⟨0, by norm_num, h⟩, ⟨1, by norm_num, h⟩, ⟨2, by norm_num, h⟩,
      ⟨3, by norm_num, h⟩, ⟨4, by norm_num, h⟩, ⟨5, by norm_num, h⟩,
      ⟨6, by norm_num, h⟩, ⟨7, by norm_num, h⟩, ⟨8, by norm_num, h⟩,
      ⟨9, by norm_num, h⟩, ⟨10, by norm_num, h⟩, ⟨11, by norm_num, h⟩]
  · rintro ⟨j, hj, h⟩
    interval_cases j <;> tauto

theorem exists_lt_succ_shift (P : Nat → Prop) (n : Nat) :
    (∃ i, i < n + 1 ∧ P i) ↔ P 0 ∨ ∃ i, i < n ∧ P (i + 1) := by
  constructor
  · rintro ⟨i, hi, hp⟩
    cases i with
    | zero => exact Or.inl hp
    | succ i => exact Or.inr ⟨i, Nat.lt_of_succ_lt_succ hi, hp⟩
  · rintro (h | ⟨i, hi, hp⟩)
    · exact ⟨0, Nat.succ_pos n, h⟩
    · exact ⟨i + 1, Nat.succ_lt_succ hi, hp⟩

theorem parseRecords_none_iff (s : List Nat) :
    ∀ (n off : Nat), off ≤ s.length →
      (parseRecords s off n = none ↔
        s.length < off + 50 * n ∨
          ∃ i, i < n ∧ ∃ j, j < 12 ∧ coordAt s (off + 50 * i) j = none) := by
  intro n
  induction n with
  | zero =>
    intro off hoff
    simp only [parseRecords, Nat.mul_zero, Nat.add_zero]
    constructor
    · intro h; exact absurd h (by simp)
    · rintro (h | ⟨i, hi, _⟩)
      · omega
      · omega
  | succ n ih =>
    intro off hoff
    by_cases hlen : s.length < off + 50
    · simp only [parseRecords, if_pos hlen]
      exact ⟨fun _ => Or.inl (by omega), fun _ => by trivial⟩
    · have hoff' : off + 50 ≤ s.length := le_of_not_lt hlen
      simp only [parseRecords, if_neg hlen]
      rw [map2_eq_none, decodeTriangleAt_none_iff, ih (off + 50) hoff']
      rw [exists_lt_succ_shift
        (fun i => ∃ j, j < 12 ∧ coordAt s (off + 50 * i) j = none) n]
      have e1 : off + 50 + 50 * n = off + 50 * (n + 1) := by ring
      have e2 : off + 50 * 0 = off := by ring
      have e3 : ∀ i : Nat, off + 50 + 50 * i = off + 50 * (i + 1) := by
        intro i; ring
      rw [e1, e2]
      constructor
      · rintro (h | h | ⟨i, hi, hj⟩)
        · exact Or.inr (Or.inl h)
        · exact Or.inl h
        · exact Or.inr (Or.inr ⟨i, hi, by rw [← e3 i]; exact hj⟩)
      · rintro (h | h | ⟨i, hi, hj⟩)
        · exact Or.inr (Or.inl h)
        · exact Or.inl h
        · exact Or.inr (Or.inr ⟨i, hi, by rw [e3 i]; exact hj⟩)

theorem parseCoordTok_isSome (t : List Nat) :
    (parseCoordTok t).isSome = (tokenIsLiteral t && tokenFiniteVal t) := by
  unfold parseCoordTok tokenIsLiteral tokenFiniteVal
  cases h : parseFloatToken t with
  | none => simp
  | some q => by_cases hq : |q| ≤ maxFiniteF32 <;> simp [hq]

theorem parseVertexLine_isSome (l : Line) :
    (parseVertexLine l).isSome = (vertexLineShape l && vertexLineFinite l) := by
  rcases l with _ | ⟨kw, _ | ⟨tx, _ | ⟨ty, _ | ⟨tz, _ | ⟨u, us⟩⟩⟩⟩⟩ <;> try rfl
  simp only [parseVertexLine, vertexLineShape, vertexLineFinite]
  cases hkw : (kw == kwVertex) with
  | false => simp [hkw]
  | true =>
    rw [if_pos rfl, map3_isSome, parseCoordTok_isSome,
      parseCoordTok_isSome, parseCoordTok_isSome]
    cases tokenIsLiteral tx <;> cases tokenIsLiteral ty <;>
      cases tokenIsLiteral tz <;> cases tokenFiniteVal tx <;>
      cases tokenFiniteVal ty <;> cases tokenFiniteVal tz <;> rfl

theorem parseNormalLine_isSome (l : Line) :
    (parseNormalLine l).isSome = (normalLineShape l && normalLineFinite l) := by
  rcases l with _ | ⟨k1, _ | ⟨k2, _ | ⟨tx, _ | ⟨ty, _ | ⟨tz, _ | ⟨u, us⟩⟩⟩⟩⟩⟩ <;>
    try rfl
  simp only [parseNormalLine, normalLineShape, normalLineFinite]
  cases hkw : (k1 == kwFacet && k2 == kwNormal) with
  | false =>
    rcases Bool.and_eq_false_iff.mp hkw with h | h <;> simp [hkw, h]
  | true =>
    rw [if_pos rfl, map3_isSome, parseCoordTok_isSome,
      parseCoordTok_isSome, parseCoordTok_isSome]
    cases tokenIsLiteral tx <;> cases tokenIsLiteral ty <;>
      cases tokenIsLiteral tz <;> cases tokenFiniteVal tx <;>
      cases tokenFiniteVal ty <;> cases tokenFiniteVal tz <;> rfl

/-- C2: for every mesh whose bounding box has zero extent on every axis
(degenerate single-point mesh), scale_and_center is total (no crash) and the
resulting scale factor is exactly 1. -/
theorem claim_c2_degenerate_scale (m : Mesh)
    (h : extentOf (bbox m.vertices) = (0, 0, 0)) :
    (scale_and_center m).scale = 1 := by
  have hmd : maxDim (bbox m.vertices) = 0 := by
    simp [maxDim, h]
  simp [scale_and_center, hmd]

theorem claim_c2_witness :
    extentOf (bbox pointMesh.vertices) = (0, 0, 0) ∧
      (scale_and_center pointMesh).scale = 1 :=
  ⟨by simp [extentOf, bbox, pointMesh],
    claim_c2_degenerate_scale pointMesh (by simp [extentOf, bbox, pointMesh])⟩

/-- C1 (counterexample): the claim as stated quantifies over every mesh, but
for the single-point mesh the transform maps the largest bounding-box
dimension (zero) to 0, not to the configured target extent, so the
conjunction claimed for every mesh fails at this mesh. -/
theorem claim_c1_counterexample :
    ¬ (nearOrigin (applyTransform (scale_and_center pointMesh)
          (centerOf (bbox pointMesh.vertices))) ∧
        (scale_and_center pointMesh).scale * maxDim (bbox pointMesh.vertices) =
          targetExtent) := by
  intro hc
  have h2 := hc.2
  rw [show (scale_and_center pointMesh).scale = 1 by
        simp [scale_and_center, maxDim, extentOf, bbox, pointMesh],
      show maxDim (bbox pointMesh.vertices) = 0 by
        simp [maxDim, extentOf, bbox, pointMesh]] at h2
  norm_num [targetExtent] at h2

/-- C1 (amended): for every mesh whose largest bounding-box dimension is at
least epsilon, the ModelTransform returned by scale_and_center maps the
bounding-box center to within floating-point epsilon of the origin and maps
the largest bounding-box dimension to exactly the configured target extent. -/
theorem claim_c1_scale_and_center (m : Mesh)
    (h : epsilon ≤ maxDim (bbox m.vertices)) :
    nearOrigin (applyTransform (scale_and_center m)
        (centerOf (bbox m.vertices))) ∧
      (scale_and_center m).scale * maxDim (bbox m.vertices) = targetExtent := by
  have hmd0 : (0 : ℚ) < maxDim (bbox m.vertices) := lt_of_lt_of_le epsilon_pos h
  have hne : maxDim (bbox m.vertices) ≠ 0 := ne_of_gt hmd0
  have hs : (scale_and_center m).scale =
      targetExtent / maxDim (bbox m.vertices) := by
    simp [scale_and_center, hne, max_eq_left h]
  constructor
  · have hzero : applyTransform (scale_and_center m)
        (centerOf (bbox m.vertices)) = (0, 0, 0) := by
      simp [applyTransform, scale_and_center]
    rw [hzero]
    refine ⟨?_, ?_, ?_⟩ <;> norm_num [epsilon]
  · rw [hs, div_mul_cancel₀ _ hne]

theorem claim_c1_witness :
    epsilon ≤ maxDim (bbox twoPointMesh.vertices) ∧
      (nearOrigin (applyTransform (scale_and_center twoPointMesh)
          (centerOf (bbox twoPointMesh.vertices))) ∧
        (scale_and_center twoPointMesh).scale *
            maxDim (bbox twoPointMesh.vertices) = targetExtent) :=
  ⟨by norm_num [epsilon, maxDim, extentOf, bbox, twoPointMesh, vmin, vmax],
    claim_c1_scale_and_center twoPointMesh
      (by norm_num [epsilon, maxDim, extentOf, bbox, twoPointMesh, vmin, vmax])⟩

theorem parseFacets_isSome : ∀ ls : List Line,
    (parseFacets ls).isSome = (facetsShape ls && facetsFinite ls) := by
  intro ls
  induction ls using parseFacets.induct with
  | case1 => rfl
  | case2 l ls hes =>
    simp [parseFacets.eq_def, facetsShape.eq_def, facetsFinite.eq_def, hes]
  | case3 l hne l2 l3 l4 l5 l6 l7 rest hg ih =>
    have hg' := hg
    simp only [Bool.and_eq_true] at hg'
    obtain ⟨⟨ho, h6⟩, h7⟩ := hg'
    simp only [parseFacets, facetsShape, facetsFinite, if_neg hne, if_pos hg]
    rw [map5_isSome, parseNormalLine_isSome, parseVertexLine_isSome,
      parseVertexLine_isSome, parseVertexLine_isSome, ih, ho, h6, h7]
    cases normalLineShape l <;> cases normalLineFinite l <;>
      cases vertexLineShape l3 <;> cases vertexLineFinite l3 <;>
      cases vertexLineShape l4 <;> cases vertexLineFinite l4 <;>
      cases vertexLineShape l5 <;> cases vertexLineFinite l5 <;>
      cases facetsShape rest <;> cases facetsFinite rest <;> rfl
  | case4 l hne l2 l3 l4 l5 l6 l7 rest hg =>
    simp only [Bool.not_eq_true, Bool.and_eq_false_iff] at hg
    rcases hg with (h | h) | h <;>
      simp [parseFacets, facetsShape, facetsFinite, if_neg hne, h]
  | case5 l ls hne hx =>
    rcases ls with _ | ⟨l2, _ | ⟨l3, _ | ⟨l4, _ | ⟨l5, _ | ⟨l6, _ | ⟨l7, rest⟩⟩⟩⟩⟩⟩ <;>
      first
      | exact absurd rfl (hx l2 l3 l4 l5 l6 l7 rest)
      | simp [parseFacets, facetsShape, facetsFinite, hne]

theorem parseText_none_iff (s : List Nat) :
    parseText s = none ↔
      textWellFormed s = false ∨ textAllFinite s = false := by
  unfold parseText textWellFormed textAllFinite
  cases hl : linesOf s with
  | nil => simp
  | cons l1 rest =>
    cases l1 with
    | nil => simp
    | cons k ktl =>
      cases hk : (k == kwSolid) with
      | false => simp [hk]
      | true =>
        simp only [hk, if_true, Bool.true_and]
        rw [Option.map_eq_none', ← Option.not_isSome_iff_eq_none,
          parseFacets_isSome]
        cases facetsShape rest <;> cases facetsFinite rest <;> simp

/-- C3: for every input byte stream, Mesh::from_stl fails (ParseError)
exactly when the stream is shorter than the minimum header size or the
declared triangle count is inconsistent with the remaining byte length or
some record coordinate is non-finite (binary variant), or a facet block is
malformed or some parsed coordinate is non-finite (text variant). -/
theorem claim_c3_parse_error_iff (s : List Nat) :
    from_stl s = none ↔
      (isText s = false ∧
        (s.length < 84 ∨ s.length < 84 + 50 * declaredCount s ∨
          ∃ i, i < declaredCount s ∧ ∃ j, j < 12 ∧
            coordAt s (84 + 50 * i) j = none)) ∨
      (isText s = true ∧
        (textWellFormed s = false ∨ textAllFinite s = false)) := by
  by_cases ht : isText s = true
  · rw [from_stl, if_pos ht, parseText_none_iff]
    simp [ht]
  · have ht' : isText s = false := by revert ht; cases isText s <;> simp
    rw [from_stl, if_neg ht]
    by_cases h84 : s.length < 84
    · simp [ht', h84]
    · rw [if_neg h84, Option.map_eq_none']
      rw [parseRecords_none_iff s (declaredCount s) 84 (le_of_not_lt h84)]
      simp [ht', h84]

theorem meshOfTriangles_lengths (ts : List Triangle) :
    (meshOfTriangles ts).vertices.length = 3 * ts.length ∧
      (meshOfTriangles ts).normals.length = 3 * ts.length := by
  have hv : (meshOfTriangles ts).vertices =
      (ts.map (fun t => [t.v0, t.v1, t.v2])).flatten := rfl
  have hn : (meshOfTriangles ts).normals =
      (ts.map (fun t => [t.normal, t.normal, t.normal])).flatten := rfl
  have l1 := length_flatten_uniform (ts.map fun t => [t.v0, t.v1, t.v2]) 3
    (by intro r hr; rcases List.mem_map.mp hr with ⟨t, _, rfl⟩; rfl)
  have l2 := length_flatten_uniform
    (ts.map fun t => [t.normal, t.normal, t.normal]) 3
    (by intro r hr; rcases List.mem_map.mp hr with ⟨t, _, rfl⟩; rfl)
  constructor
  · rw [hv, l1]; simp [Nat.mul_comm]
  · rw [hn, l2]; simp [Nat.mul_comm]

theorem from_stl_mesh_shape (s : List Nat) (m : Mesh)
    (h : from_stl s = some m) : ∃ ts : List Triangle, m = meshOfTriangles ts := by
  rw [from_stl] at h
  split_ifs at h with ht h84
  · rw [parseText] at h
    rcases hl : linesOf s with _ | ⟨l1, rest⟩ <;> rw [hl] at h
    · exact absurd h (by simp)
    · rcases l1 with _ | ⟨k, ktl⟩
      · exact absurd h (by simp)
      · dsimp only at h
        split_ifs at h with hk
        rcases Option.map_eq_some'.mp h with ⟨ts, _, hm⟩
        exact ⟨ts, hm.symm⟩
  · rcases Option.map_eq_some'.mp h with ⟨ts, _, hm⟩
    exact ⟨ts, hm.symm⟩

/-- C4: for every Mesh produced by Mesh::from_stl, the flat vertex array
and the flat normal array have equal length, and that length is a multiple
of 3. -/
theorem claim_c4_mesh_invariant (s : List Nat) (m : Mesh)
    (h : from_stl s = some m) :
    m.vertices.length = m.normals.length ∧ m.vertices.length % 3 = 0 := by
  rcases from_stl_mesh_shape s m h with ⟨ts, rfl⟩
  rcases meshOfTriangles_lengths ts with ⟨h1, h2⟩
  rw [h1, h2]
  exact ⟨rfl, by omega⟩

theorem claim_c4_witness :
    from_stl emptyBinStl = some emptyMesh ∧
      (emptyMesh.vertices.length = emptyMesh.normals.length ∧
        emptyMesh.vertices.length % 3 = 0) :=
  ⟨by decide, claim_c4_mesh_invariant emptyBinStl emptyMesh (by decide)⟩

/-- C7: AntialiasPass is the identity on every uniform-color input texture:
on a constant-luma image the local contrast is zero, below the threshold, so
every pixel passes through unchanged and the output equals the input
exactly; the pass reads the input purely and never mutates it. -/
theorem claim_c7_fxaa_identity_on_uniform (c : Color) :
    fxaaApply (uniformImage c) = uniformImage c := by
  funext x y
  show fxaaPixel (uniformImage c) x y = c
  simp only [fxaaPixel, uniformImage, max_self, min_self, sub_self]
  rw [if_pos (by norm_num [fxaaThreshold])]

theorem getD_map_rowBytes (l : List (List Pixel)) (i : Nat) :
    (l.map rowBytes).getD i [] = rowBytes (l.getD i []) := by
  induction l generalizing i with
  | nil => cases i <;> simp [rowBytes]
  | cons r l ih =>
    cases i with
    | zero => rfl
    | succ n => simp only [List.map_cons, List.getD_cons_succ]; exact ih n

theorem getD_reverse_pixelRows (l : List (List Pixel)) (i : Nat)
    (hi : i < l.length) :
    l.reverse.getD i [] = l.getD (l.length - 1 - i) [] := by
  rw [List.getD_eq_getElem?_getD, List.getD_eq_getElem?_getD]
  rw [List.getElem?_reverse (by simpa using hi)]

/-- C9: for every texture given as h rows of w RGBA8 pixels in graphics
(bottom-first) row order, ImageCapture produces a buffer of exactly
width times height times 4 bytes, and row i of the buffer equals row
h-1-i of the texture: the rows are flipped top-to-bottom, converting the
bottom-left graphics origin to the top-left image origin. -/
theorem claim_c9_capture_flips_rows (w h : Nat) (rows : List (List Pixel))
    (hlen : rows.length = h) (hw : ∀ r ∈ rows, r.length = w) :
    (capture rows).length = w * h * 4 ∧
      ∀ i, i < h →
        ((capture rows).drop (4 * w * i)).take (4 * w) =
          rowBytes (rows.getD (h - 1 - i) []) := by
  have hmap : ∀ r ∈ (rows.reverse).map rowBytes, r.length = 4 * w := by
    intro r hr
    rcases List.mem_map.mp hr with ⟨x, hx, rfl⟩
    rw [rowBytes_length, hw x (List.mem_reverse.mp hx)]
    ring
  constructor
  · rw [capture, length_flatten_uniform _ (4 * w) hmap]
    simp only [List.length_map, List.length_reverse, hlen]
    ring
  · intro i hi
    rw [capture, flatten_uniform_extract _ (4 * w) i hmap
      (by simpa [hlen] using hi)]
    rw [getD_map_rowBytes, getD_reverse_pixelRows rows i (by omega), hlen]

theorem claim_c9_witness :
    [[((1 : Nat), (2 : Nat), (3 : Nat), (4 : Nat)), (5, 6, 7, 8)],
        [(9, 10, 11, 12), (13, 14, 15, 16)]].length = 2 ∧
      (capture [[(1, 2, 3, 4), (5, 6, 7, 8)],
          [(9, 10, 11, 12), (13, 14, 15, 16)]]).length = 2 * 2 * 4 :=
  ⟨by decide,
    (claim_c9_capture_flips_rows 2 2
      [[(1, 2, 3, 4), (5, 6, 7, 8)], [(9, 10, 11, 12), (13, 14, 15, 16)]]
      (by decide) (by decide)).1⟩

/-- C5 (counterexample): at a concrete run in which the shader fails to
compile, the code logs the diagnostic and then panics with the fixed
message "Compiling shaders", aborting the process; the run does not return
a GraphicsInitError through its Result, contrary to the claim. -/
theorem claim_c5_counterexample :
    (run cfgBase envCompileFail).1 = Outcome.panic ("Compiling shaders") ∧
      (run cfgBase envCompileFail).1 ≠
        Outcome.err RunError.graphicsInitError := by
  constructor
  · rfl
  · intro h
    rw [show (run cfgBase envCompileFail).1 =
      Outcome.panic ("Compiling shaders") from rfl] at h
    exact Outcome.noConfusion h

/-- C5 (amended): the file-open failure and the mesh-parse failure surface
tagged errors (IoError, ParseError) through run's Result; a
graphics-context acquisition failure aborts the process via panic (the
unwrapped Display::new), and a shader compile failure aborts the process
with the fixed panic message after logging the compiler diagnostic. -/
theorem claim_c5_error_propagation (cfg : Config) (env : Env) :
    (env.stlBytes = Except.error () → (run cfg env).1 = Outcome.err RunError.ioError) ∧
      (∀ bytes, env.stlBytes = Except.ok bytes → from_stl bytes = none →
        (run cfg env).1 = Outcome.err RunError.parseError) ∧
      (∀ bytes m, env.stlBytes = Except.ok bytes → from_stl bytes = some m →
        env.displayNew = Except.error () →
        (run cfg env).1 = Outcome.panic ("display creation")) ∧
      (∀ bytes m diag, env.stlBytes = Except.ok bytes →
        from_stl bytes = some m → env.displayNew = Except.ok () →
        env.compileResult = CompileResult.compilationError diag →
        (run cfg env).1 = Outcome.panic ("Compiling shaders")) := by
  refine ⟨?_, ?_, ?_, ?_⟩
  · intro h
    simp [run, h]
  · intro bytes h1 h2
    simp [run, h1, h2]
  · intro bytes m h1 h2 h3
    simp [run, h1, h2, h3]
  · intro bytes m diag h1 h2 h3 h4
    simp [run, h1, h2, h3, h4]

theorem claim_c5_witness :
    envCompileFail.stlBytes = Except.ok emptyBinStl ∧
      from_stl emptyBinStl = some emptyMesh ∧
      envDisplayFail.displayNew = Except.error () ∧
      (run cfgBase envDisplayFail).1 = Outcome.panic ("display creation") ∧
      envCompileFail.displayNew = Except.ok () ∧
      envCompileFail.compileResult = CompileResult.compilationError ("diag") ∧
      (run cfgBase envCompileFail).1 = Outcome.panic ("Compiling shaders") :=
  ⟨rfl, by decide, rfl,
    (claim_c5_error_propagation cfgBase envDisplayFail).2.2.1 emptyBinStl
      emptyMesh rfl (by decide) rfl,
    rfl, rfl,
    (claim_c5_error_propagation cfgBase envCompileFail).2.2.2 emptyBinStl
      emptyMesh ("diag") rfl (by decide) rfl rfl⟩

/-- C6: for every run whose opened input stream is a truncated binary mesh
(the declared triangle count exceeds the available bytes), run returns
ParseError and the trace contains no GPU resource allocation: no context,
program, buffer, texture, framebuffer or fxaa system is created before the
mesh parse succeeds. -/
theorem claim_c6_no_gpu_on_truncated (cfg : Config) (env : Env)
    (bytes : List Nat) (h : env.stlBytes = Except.ok bytes)
    (hbin : isText bytes = false) (hlen : 84 ≤ bytes.length)
    (htrunc : bytes.length < 84 + 50 * declaredCount bytes) :
    (run cfg env).1 = Outcome.err RunError.parseError ∧
      noGpuAlloc (run cfg env).2 = true := by
  have hstl : from_stl bytes = none := by
    rw [from_stl, if_neg (by simp [hbin]), if_neg (by omega),
      Option.map_eq_none',
      parseRecords_none_iff bytes (declaredCount bytes) 84 hlen]
    exact Or.inl (by omega)
  have hrun : run cfg env = (Outcome.err RunError.parseError,
      [Ev.openFile, Ev.parseStl]) := by
    simp [run, h, hstl]
  rw [hrun]
  exact ⟨rfl, by decide⟩

theorem claim_c6_witness :
    envTrunc.stlBytes = Except.ok truncBinStl ∧
      isText truncBinStl = false ∧
      84 ≤ truncBinStl.length ∧
      truncBinStl.length < 84 + 50 * declaredCount truncBinStl ∧
      ((run cfgBase envTrunc).1 = Outcome.err RunError.parseError ∧
        noGpuAlloc (run cfgBase envTrunc).2 = true) :=
  ⟨rfl, by decide, by decide, by decide,
    claim_c6_no_gpu_on_truncated cfgBase envTrunc truncBinStl rfl
      (by decide) (by decide) (by decide)⟩

/-- C10: on every successful run the output image is written in PNG format
unconditionally: the trace contains a PNG write to the destination derived
from the configured output filename (a file of any extension, or standard
output when none is configured), and every write event in the trace uses
the PNG format. -/
theorem claim_c10_always_png (cfg : Config) (env : Env)
    (h : (run cfg env).1 = Outcome.ok) :
    Ev.writeImage ImageFormat.png (destOf cfg.img_filename) ∈ (run cfg env).2 ∧
      allWritesPng (run cfg env).2 = true := by
  rcases env with ⟨sb, dn, cr, vb, nb, tx, dt, fb, dr, rp, fc, wr⟩
  rcases cfg with ⟨sf, imf, w, hgt, vis⟩
  cases sb with
  | error e => simp [run] at h
  | ok bytes =>
    cases hstl : from_stl bytes with
    | none => simp [run, hstl] at h
    | some m =>
      cases dn with
      | error e => simp [run, hstl] at h
      | ok u1 =>
        cases cr with
        | compilationError d => simp [run, hstl] at h
        | otherError msg => simp [run, hstl] at h
        | ok =>
          cases vb with
          | error e => simp [run, hstl] at h
          | ok u2 =>
            cases nb with
            | error e => simp [run, hstl] at h
            | ok u3 =>
              cases tx with
              | error e => simp [run, hstl] at h
              | ok u4 =>
                cases dt with
                | error e => simp [run, hstl] at h
                | ok u5 =>
                  cases fb with
                  | error e => simp [run, hstl] at h
                  | ok u6 =>
                    cases dr with
                    | error e => simp [run, hstl] at h
                    | ok u7 =>
                      by_cases hbuf : (capture rp).length = w * hgt * 4
                      · cases imf with
                        | some name =>
                          cases fc with
                          | error e => simp [run, hstl, hbuf] at h
                          | ok u8 =>
                            cases wr with
                            | error e => simp [run, hstl, hbuf] at h
                            | ok u9 =>
                              constructor
                              · simp [run, hstl, hbuf, destOf]
                              · have : (run ⟨sf, some name, w, hgt, vis⟩
                                    ⟨Except.ok bytes, Except.ok u1,
                                      CompileResult.ok, Except.ok u2,
                                      Except.ok u3, Except.ok u4,
                                      Except.ok u5, Except.ok u6,
                                      Except.ok u7, rp, Except.ok u8,
                                      Except.ok u9⟩).2 =
                                    [Ev.openFile, Ev.parseStl,
                                      Ev.createDisplay, Ev.compileProgram,
                                      Ev.createVertexBuffer,
                                      Ev.createNormalBuffer, Ev.createTexture,
                                      Ev.createDepthTexture,
                                      Ev.createFramebuffer, Ev.createFxaa,
                                      Ev.clearColorAndDepth BACKGROUND_COLOR 1,
                                      Ev.draw, Ev.readPixels,
                                      Ev.writeImage ImageFormat.png
                                        (Dest.file name)] := by
                                  simp [run, hstl, hbuf]
                                rw [this]
                                simp [allWritesPng]
                        | none =>
                          cases wr with
                          | error e => simp [run, hstl, hbuf] at h
                          | ok u9 =>
                            constructor
                            · simp [run, hstl, hbuf, destOf]
                            · have : (run ⟨sf, none, w, hgt, vis⟩
                                  ⟨Except.ok bytes, Except.ok u1,
                                    CompileResult.ok, Except.ok u2,
                                    Except.ok u3, Except.ok u4, Except.ok u5,
                                    Except.ok u6, Except.ok u7, rp,
                                    fc, Except.ok u9⟩).2 =
                                  [Ev.openFile, Ev.parseStl, Ev.createDisplay,
                                    Ev.compileProgram, Ev.createVertexBuffer,
                                    Ev.createNormalBuffer, Ev.createTexture,
                                    Ev.createDepthTexture,
                                    Ev.createFramebuffer, Ev.createFxaa,
                                    Ev.clearColorAndDepth BACKGROUND_COLOR 1,
                                    Ev.draw, Ev.readPixels,
                                    Ev.writeImage ImageFormat.png
                                      Dest.stdout] := by
                                simp [run, hstl, hbuf]
                              rw [this]
                              decide
                      · simp [run, hstl, hbuf] at h

theorem claim_c10_witness :
    (run cfgBase envOK).1 = Outcome.ok ∧
      (Ev.writeImage ImageFormat.png (destOf cfgBase.img_filename) ∈
          (run cfgBase envOK).2 ∧
        allWritesPng (run cfgBase envOK).2 = true) :=
  ⟨by decide, claim_c10_always_png cfgBase envOK (by decide)⟩

theorem sublist_of_middle {α : Type} (a b : α) (l pre post : List α)
    (h : l = pre ++ a :: b :: post) : List.Sublist [a, b] l := by
  subst h
  have h1 : List.Sublist [a, b] (a :: b :: post) :=
    List.Sublist.cons₂ a (List.Sublist.cons₂ b (List.nil_sublist post))
  exact h1.trans (List.sublist_append_right pre (a :: b :: post))

/-- C8 (counterexample): at a successful concrete run the offscreen clear
uses the hard-coded BACKGROUND_COLOR constant, not a background supplied
through the external render-configuration surface: with the spec-side
configured background (0,0,0,1) no clear to that color ever occurs, while
the clear to the constant (1,1,1,0) does. -/
theorem claim_c8_counterexample :
    (run cfgBase envOK).1 = Outcome.ok ∧
      specCfg.background ≠ BACKGROUND_COLOR ∧
      Ev.clearColorAndDepth specCfg.background 1 ∉ (run cfgBase envOK).2 ∧
      Ev.clearColorAndDepth BACKGROUND_COLOR 1 ∈ (run cfgBase envOK).2 := by
  refine ⟨by decide, by decide, by decide, by decide⟩

/-- C8 (amended): on every successful run the offscreen color target is
cleared to the hard-coded BACKGROUND_COLOR (1,1,1,0) (its zero alpha
included) and the depth target to the far value 1.0, before the single
draw call covering all triangles is issued: the clear event followed by
the draw event occurs as a subsequence of the trace. -/
theorem claim_c8_clear_before_draw (cfg : Config) (env : Env)
    (h : (run cfg env).1 = Outcome.ok) :
    List.Sublist [Ev.clearColorAndDepth BACKGROUND_COLOR 1, Ev.draw]
      (run cfg env).2 := by
  rcases env with ⟨sb, dn, cr, vb, nb, tx, dt, fb, dr, rp, fc, wr⟩
  rcases cfg with ⟨sf, imf, w, hgt, vis⟩
  cases sb with
  | error e => simp [run] at h
  | ok bytes =>
    cases hstl : from_stl bytes with
    | none => simp [run, hstl] at h
    | some m =>
      cases dn with
      | error e => simp [run, hstl] at h
      | ok u1 =>
        cases cr with
        | compilationError d => simp [run, hstl] at h
        | otherError msg => simp [run, hstl] at h
        | ok =>
          cases vb with
          | error e => simp [run, hstl] at h
          | ok u2 =>
            cases nb with
            | error e => simp [run, hstl] at h
            | ok u3 =>
              cases tx with
              | error e => simp [run, hstl] at h
              | ok u4 =>
                cases dt with
                | error e => simp [run, hstl] at h
                | ok u5 =>
                  cases fb with
                  | error e => simp [run, hstl] at h
                  | ok u6 =>
                    cases dr with
                    | error e => simp [run, hstl] at h
                    | ok u7 =>
                      by_cases hbuf : (capture rp).length = w * hgt * 4
                      · cases imf with
                        | some name =>
                          cases fc with
                          | error e => simp [run, hstl, hbuf] at h
                          | ok u8 =>
                            cases wr with
                            | error e => simp [run, hstl, hbuf] at h
                            | ok u9 =>
                              exact sublist_of_middle _ _ _
                                [Ev.openFile, Ev.parseStl, Ev.createDisplay,
                                  Ev.compileProgram, Ev.createVertexBuffer,
                                  Ev.createNormalBuffer, Ev.createTexture,
                                  Ev.createDepthTexture, Ev.createFramebuffer,
                                  Ev.createFxaa]
                                [Ev.readPixels,
                                  Ev.writeImage ImageFormat.png
                                    (Dest.file name)]
                                (by simp [run, hstl, hbuf])
                        | none =>
                          cases wr with
                          | error e => simp [run, hstl, hbuf] at h
                          | ok u9 =>
                            exact sublist_of_middle _ _ _
                              [Ev.openFile, Ev.parseStl, Ev.createDisplay,
                                Ev.compileProgram, Ev.createVertexBuffer,
                                Ev.createNormalBuffer, Ev.createTexture,
                                Ev.createDepthTexture, Ev.createFramebuffer,
                                Ev.createFxaa]
                              [Ev.readPixels,
                                Ev.writeImage ImageFormat.png Dest.stdout]
                              (by simp [run, hstl, hbuf])
                      · simp [run, hstl, hbuf] at h

theorem claim_c8_witness :
    (run cfgBase envOK).1 = Outcome.ok ∧
      List.Sublist [Ev.clearColorAndDepth BACKGROUND_COLOR 1, Ev.draw]
        (run cfgBase envOK).2 :=
  ⟨by decide, claim_c8_clear_before_draw cfgBase envOK (by decide)⟩

end StlThumb
